import Mathlib

/-!
# buildkite_exporter: the collector

A shallow embedding of `exporter.go`.  The `Exporter` struct is a record of
metric values that the methods `Collect`, `scrape`, `scrapeBuilds` and
`scrapeAgents` mutate in place; here every method takes the record and returns
the mutated record.  The Buildkite client is the environment: what its two
list calls answer in one cycle, and the wall-clock time the cycle took, are
the `Upstream` argument of `Collect`.

Metric values are `float64` in the metrics library.  Every value the
collector stores except the duration is a count obtained from zero by `Inc`
or from a slice length, and such counts are exact in `float64` far beyond any
reachable magnitude, so they are natural numbers here.  The duration is kept
as the elapsed nanoseconds that `time.Since` yields; the conversion to seconds
is not modelled.

The mutex of the struct is not modelled: all definitions describe one
goroutine running `Collect` calls one after another.
-/

namespace BuildkiteExporter

/-! ## Data model -/

/-- A build as the client library returns it.  The source reads the state as
`*build.State`, a dereference of a string pointer, so the field may be nil. -/
structure Build where
  State : Option String
deriving DecidableEq, Repr

/-- An agent as the client library returns it.  The source only takes the
length of the returned slice, so no field is modelled. -/
structure Agent where
deriving DecidableEq, Repr

/-- The answer of one list call of the client: the returned slice, or the
error of the call. -/
abbrev Fetch (α : Type) := Except String (List α)

/-- What the environment supplies to one scrape cycle. -/
structure Upstream where
  builds : Fetch Build
  agents : Fetch Agent
  elapsed : Nat
deriving Repr

/-- A metric vector with one label (`GaugeVec`, `CounterVec`): the children
created so far, each under its label value, in creation order. -/
abbrev MetricVec := List (String × Nat)

/-- The value of the child under label value `l`; a child that was never
created reads as zero. -/
def vecGet : MetricVec → String → Nat
  | [], _ => 0
  | (k, x) :: rest, l => if k = l then x else vecGet rest l

/-- Whether a child exists under label value `l`. -/
def vecHas : MetricVec → String → Bool
  | [], _ => false
  | (k, _) :: rest, l => if k = l then true else vecHas rest l

/-- The method chain `WithLabelValues(l).op()` (also `With(Labels{..}).op()`):
fetch the child under `l`, creating it at zero when absent, and apply `op`. -/
def vecWith : MetricVec → String → (Nat → Nat) → MetricVec
  | [], l, op => [(l, op 0)]
  | (k, x) :: rest, l, op =>
    if k = l then (k, op x) :: rest else (k, x) :: vecWith rest l op

/-- The method `Reset` of a vector: delete every child. -/
def vecReset (_ : MetricVec) : MetricVec := []

/-- The sum of the values of all children. -/
def vecSum (v : MetricVec) : Nat := (v.map Prod.snd).sum

/-- One emitted sample: the fully qualified metric name, the label pair when
the metric belongs to a vector, and the value. -/
structure Sample where
  name : String
  label : Option (String × String)
  value : Nat
deriving DecidableEq, Repr

/-- The method `Collect` of a vector: one sample per existing child. -/
def vecCollect (name labelName : String) (v : MetricVec) : List Sample :=
  v.map (fun kv => ⟨name, some (labelName, kv.1), kv.2⟩)

/-- The metric fields of the struct `Exporter`. -/
structure Exporter where
  duration : Nat
  error : Nat
  totalScrapes : Nat
  scrapeErrors : MetricVec
  builds : MetricVec
  agents : Nat
  up : Nat
deriving DecidableEq, Repr

/-- The constant `namespace` of `main.go`. -/
def namespaceName : String := "buildkite"

/-- The fully qualified name of a metric of this exporter. -/
def fqName (name : String) : String := namespaceName ++ "_" ++ name

/-- The exporter `NewExporter` returns: fresh gauges and counters read zero
and fresh vectors have no children. -/
def NewExporter : Exporter :=
  { duration := 0, error := 0, totalScrapes := 0, scrapeErrors := [],
    builds := [], agents := 0, up := 0 }

/-- How a call ended: it returned a value, or a run-time panic unwound it. -/
inductive Flow (α : Type) where
  | returned (v : α)
  | panicked
deriving DecidableEq, Repr

/-! ## Operations -/

/-- The slice `states` of `scrapeBuilds`. -/
def states : List String :=
  ["running", "scheduled", "passed", "failed", "blocked", "canceled",
   "canceling", "skipped", "not_run", "finished"]

/-- The first loop of `scrapeBuilds`: `WithLabelValues(state).Set(0)` for
every enumerated state. -/
def seedStates (v : MetricVec) : MetricVec :=
  states.foldl (fun acc state => vecWith acc state (fun _ => 0)) v

/-- The second loop of `scrapeBuilds`: `With(Labels{"state": *build.State}).Inc()`
for every build in order.  Dereferencing a nil state panics; the increments
made before that build stay. -/
def countBuilds : MetricVec → List Build → MetricVec × Flow Unit
  | v, [] => (v, .returned ())
  | v, build :: rest =>
    match build.State with
    | none => (v, .panicked)
    | some state => countBuilds (vecWith v state (· + 1)) rest

/-- The method `scrapeBuilds`.  The returned flag tells whether the returned
error is non-nil. -/
def scrapeBuilds (e : Exporter) (r : Fetch Build) : Exporter × Flow Bool :=
  let e1 := { e with builds := seedStates e.builds }
  match r with
  | .error _ =>
    ({ e1 with scrapeErrors := vecWith e1.scrapeErrors "builds" (· + 1) }, .returned true)
  | .ok builds =>
    match countBuilds e1.builds builds with
    | (v, .returned _) => ({ e1 with builds := v }, .returned false)
    | (v, .panicked) => ({ e1 with builds := v }, .panicked)

/-- The method `scrapeAgents`.  The returned flag tells whether the returned
error is non-nil. -/
def scrapeAgents (e : Exporter) (r : Fetch Agent) : Exporter × Bool :=
  match r with
  | .error _ =>
    ({ e with scrapeErrors := vecWith e.scrapeErrors "agents" (· + 1) }, true)
  | .ok agents => ({ e with agents := agents.length }, false)

/-- The deferred closure of `scrape`: set the duration, and set the error
gauge from the variable `err` as it stands when the closure runs. -/
def scrapeDeferred (e : Exporter) (elapsed : Nat) (errSet : Bool) : Exporter :=
  { e with duration := elapsed, error := if errSet then 1 else 0 }

/-- The method `scrape`.  When `scrapeBuilds` panics, the assignment to `err`
never happens, the rest of the body is skipped and the deferred closure runs
with `err` still nil while the panic unwinds. -/
def scrape (e : Exporter) (u : Upstream) : Exporter × Flow Unit :=
  let e1 := { e with totalScrapes := e.totalScrapes + 1 }
  match scrapeBuilds e1 u.builds with
  | (e2, .panicked) => (scrapeDeferred e2 u.elapsed false, .panicked)
  | (e2, .returned err) =>
    let e3 := (scrapeAgents e2 u.agents).1
    let e4 := { e3 with up := 1 }
    (scrapeDeferred e4 u.elapsed err, .returned ())

/-- The samples `Collect` sends after `scrape` has returned: the builds
vector, the scrape errors vector, then agents, duration, total scrapes, error
and up. -/
def emit (e : Exporter) : List Sample :=
  vecCollect (fqName "builds") "state" e.builds ++
  vecCollect (fqName "scrape_errors_total") "collector" e.scrapeErrors ++
  [⟨fqName "agents", none, e.agents⟩,
   ⟨fqName "last_scrape_duration_seconds", none, e.duration⟩,
   ⟨fqName "scrapes_total", none, e.totalScrapes⟩,
   ⟨fqName "last_scrape_error", none, e.error⟩,
   ⟨fqName "up", none, e.up⟩]

/-- The method `Collect`: reset the builds vector, scrape, emit.  The result
is the exporter afterwards and how the call ended: the samples sent when it
returned, or a panic, in which case nothing was sent. -/
def Collect (e : Exporter) (u : Upstream) : Exporter × Flow (List Sample) :=
  let e0 := { e with builds := vecReset e.builds }
  match scrape e0 u with
  | (e1, .returned _) => (e1, .returned (emit e1))
  | (e1, .panicked) => (e1, .panicked)

/-- A sequence of `Collect` calls, one after another on the same exporter. -/
def collects (e : Exporter) : List Upstream → Exporter
  | [] => e
  | u :: rest => collects (Collect e u).1 rest

/-! ## Derived notions used in the statements -/

/-- The number of builds in a slice whose state is present and equal to `s`. -/
def buildsInState (bs : List Build) (s : String) : Nat :=
  (bs.filter (fun b => b.State = some s)).length

/-- Whether a fetch failed. -/
def failed {α : Type} (r : Fetch α) : Bool :=
  match r with
  | .error _ => true
  | .ok _ => false

/-- Every build of a slice carries a state. -/
def allHaveState (bs : List Build) : Bool :=
  bs.all (fun b => b.State.isSome)

/-- The builds fetch failed, or every build it returned carries a state. -/
def statesPresent (r : Fetch Build) : Bool :=
  match r with
  | .error _ => true
  | .ok bs => allHaveState bs

/-- Whether a call returned and sent a sample with the given name and label. -/
def emits (r : Flow (List Sample)) (name : String) (label : Option (String × String)) : Bool :=
  match r with
  | .returned out => out.any (fun x => x.name = name ∧ x.label = label)
  | .panicked => false

/-- Whether a call returned and sent the given sample. -/
def emitsSample (r : Flow (List Sample)) (x : Sample) : Bool :=
  match r with
  | .returned out => decide (x ∈ out)
  | .panicked => false

/-- The cycle of the first scenario: builds passed, passed, failed and three
agents. -/
def scenarioOk : Upstream :=
  { builds := .ok [⟨some "passed"⟩, ⟨some "passed"⟩, ⟨some "failed"⟩],
    agents := .ok [⟨⟩, ⟨⟩, ⟨⟩], elapsed := 1500 }

/-- The cycle of the second scenario: the builds fetch fails and the agents
fetch returns five agents. -/
def scenarioBuildsDown : Upstream :=
  { builds := .error "transport", agents := .ok [⟨⟩, ⟨⟩, ⟨⟩, ⟨⟩, ⟨⟩], elapsed := 900 }

/-- The exporter a cycle leaves behind when `scrapeBuilds` returns: `mid` is
the exporter after `scrapeBuilds` and `err` its error flag. -/
def finish (mid : Exporter) (err : Bool) (u : Upstream) : Exporter :=
  scrapeDeferred { (scrapeAgents mid u.agents).1 with up := 1 } u.elapsed err

/-- The exporter after `scrapeBuilds` in a cycle whose builds fetch returned
`bs`, every build carrying a state. -/
def midOk (e : Exporter) (bs : List Build) : Exporter :=
  { e with totalScrapes := e.totalScrapes + 1, builds := (countBuilds (seedStates []) bs).1 }

/-- The exporter after `scrapeBuilds` in a cycle whose builds fetch failed. -/
def midError (e : Exporter) : Exporter :=
  { e with totalScrapes := e.totalScrapes + 1, builds := seedStates [],
           scrapeErrors := vecWith e.scrapeErrors "builds" (· + 1) }

/-- An exporter that holds counts of an earlier cycle. -/
def staleExporter : Exporter :=
  { duration := 7, error := 1, totalScrapes := 4,
    scrapeErrors := [("builds", 2)],
    builds := [("running", 3), ("passed", 9), ("failed", 1)], agents := 6, up := 1 }

/-- A cycle in which both fetches fail. -/
def scenarioAllDown : Upstream :=
  { builds := .error "transport", agents := .error "transport", elapsed := 40 }

/-- A cycle in which the builds fetch succeeds and the agents fetch fails. -/
def scenarioAgentsDown : Upstream :=
  { builds := .ok [⟨some "running"⟩], agents := .error "transport", elapsed := 55 }

/-- A cycle whose builds fetch succeeds with one build that has no state. -/
def scenarioNilState : Upstream :=
  { builds := .ok [⟨none⟩], agents := .ok [⟨⟩], elapsed := 10 }

/-- A cycle whose builds fetch succeeds with one build in a state outside the
enumerated set. -/
def scenarioUnknownState : Upstream :=
  { builds := .ok [⟨some "waiting"⟩], agents := .ok [⟨⟩], elapsed := 10 }

/-- A cycle whose builds fetch succeeds with a build in state passed, a build
that has no state, and another build in state passed. -/
def scenarioStateMissing : Upstream :=
  { builds := .ok [⟨some "passed"⟩, ⟨none⟩, ⟨some "passed"⟩], agents := .ok [⟨⟩],
    elapsed := 10 }

/-- A cycle whose builds fetch succeeds with one build that has no state and
whose agents fetch succeeds with two agents. -/
def scenarioNilStateTwoAgents : Upstream :=
  { builds := .ok [⟨none⟩], agents := .ok [⟨⟩, ⟨⟩], elapsed := 10 }

/-- A cycle whose builds fetch succeeds with one build that has no state and
whose agents fetch fails. -/
def scenarioNilStateAgentsDown : Upstream :=
  { builds := .ok [⟨none⟩], agents := .error "transport", elapsed := 10 }

/-! ## Lemmas on metric vectors -/

theorem vecGet_vecWith (v : MetricVec) (l l' : String) (op : Nat → Nat) :
    vecGet (vecWith v l op) l' = if l = l' then op (vecGet v l) else vecGet v l' := by
  induction v with
  | nil =>
    by_cases h : l = l' <;> simp [vecWith, vecGet, h]
  | cons kv rest ih =>
    obtain ⟨k, x⟩ := kv
    by_cases hk : k = l
    · subst hk
      by_cases h : k = l' <;> simp [vecWith, vecGet, h]
    · by_cases h : l = l'
      · subst h
        simp [vecWith, vecGet, hk, ih]
      · by_cases hk' : k = l'
        · subst hk'
          simp [vecWith, vecGet, hk, h]
        · simp [vecWith, vecGet, hk, hk', h, ih]

theorem vecHas_vecWith (v : MetricVec) (l l' : String) (op : Nat → Nat) :
    vecHas (vecWith v l op) l' = (decide (l = l') || vecHas v l') := by
  induction v with
  | nil =>
    by_cases h : l = l' <;> simp [vecWith, vecHas, h]
  | cons kv rest ih =>
    obtain ⟨k, x⟩ := kv
    by_cases hk : k = l
    · subst hk
      by_cases h : k = l' <;> simp [vecWith, vecHas, h]
    · by_cases h : l = l'
      · subst h
        simp [vecWith, vecHas, hk, ih]
      · by_cases hk' : k = l'
        · subst hk'
          simp [vecWith, vecHas, hk, h]
        · simp [vecWith, vecHas, hk, hk', h, ih]

theorem vecSum_vecWith_succ (v : MetricVec) (l : String) :
    vecSum (vecWith v l (· + 1)) = vecSum v + 1 := by
  induction v with
  | nil => simp [vecWith, vecSum]
  | cons kv rest ih =>
    obtain ⟨k, x⟩ := kv
    by_cases hk : k = l
    · simp [vecWith, vecSum, hk]
      omega
    · have ih' : (List.map Prod.snd (vecWith rest l (· + 1))).sum
          = (List.map Prod.snd rest).sum + 1 := ih
      simp [vecWith, vecSum, hk, ih']
      omega

theorem seedStates_nil : seedStates [] = states.map (fun s => (s, 0)) := by
  decide

theorem vecGet_seeded (s : String) : vecGet (states.map (fun s => (s, 0))) s = 0 := by
  simp only [states, List.map, vecGet]
  repeat (first | rfl | split)

theorem vecSum_seeded : vecSum (states.map (fun s => (s, 0))) = 0 := by
  decide

/-! ## Lemmas on the builds loop -/

theorem countBuilds_returned (bs : List Build) (h : allHaveState bs = true) (v : MetricVec) :
    (countBuilds v bs).2 = .returned () := by
  induction bs generalizing v with
  | nil => rfl
  | cons b rest ih =>
    obtain ⟨st⟩ := b
    cases st with
    | none => simp [allHaveState] at h
    | some s =>
      have hr : allHaveState rest = true := by
        simp [allHaveState] at h ⊢
        exact h
      simpa [countBuilds] using ih hr _

theorem countBuilds_get (bs : List Build) (h : allHaveState bs = true) (v : MetricVec)
    (s : String) :
    vecGet (countBuilds v bs).1 s = vecGet v s + buildsInState bs s := by
  induction bs generalizing v with
  | nil => simp [countBuilds, buildsInState]
  | cons b rest ih =>
    obtain ⟨st⟩ := b
    cases st with
    | none => simp [allHaveState] at h
    | some s' =>
      have hr : allHaveState rest = true := by
        simp [allHaveState] at h ⊢
        exact h
      have := ih hr (vecWith v s' (· + 1))
      simp only [countBuilds, this, vecGet_vecWith]
      by_cases hs : s' = s
      · subst hs
        simp [buildsInState, List.filter_cons]
        omega
      · simp [buildsInState, List.filter_cons, hs]

theorem countBuilds_sum (bs : List Build) (h : allHaveState bs = true) (v : MetricVec) :
    vecSum (countBuilds v bs).1 = vecSum v + bs.length := by
  induction bs generalizing v with
  | nil => simp [countBuilds]
  | cons b rest ih =>
    obtain ⟨st⟩ := b
    cases st with
    | none => simp [allHaveState] at h
    | some s' =>
      have hr : allHaveState rest = true := by
        simp [allHaveState] at h ⊢
        exact h
      have := ih hr (vecWith v s' (· + 1))
      simp only [countBuilds, this, vecSum_vecWith_succ, List.length_cons]
      omega

/-! ## Lemmas on one cycle -/

theorem scrapeBuilds_ok (e : Exporter) (bs : List Build) (h : allHaveState bs = true) :
    scrapeBuilds e (.ok bs) =
      ({ e with builds := (countBuilds (seedStates e.builds) bs).1 }, .returned false) := by
  have hr := countBuilds_returned bs h (seedStates e.builds)
  rcases hc : countBuilds (seedStates e.builds) bs with ⟨v, f⟩
  rw [hc] at hr
  simp only at hr
  subst hr
  simp only [scrapeBuilds, hc]

theorem scrapeBuilds_error (e : Exporter) (err : String) :
    scrapeBuilds e (.error err) =
      ({ e with builds := seedStates e.builds,
                scrapeErrors := vecWith e.scrapeErrors "builds" (· + 1) }, .returned true) := by
  rfl

theorem Collect_builds_ok (e : Exporter) (u : Upstream) (bs : List Build)
    (hu : u.builds = .ok bs) (h : allHaveState bs = true) :
    Collect e u = (finish (midOk e bs) false u, .returned (emit (finish (midOk e bs) false u))) := by
  simp only [Collect, scrape, hu, vecReset, scrapeBuilds_ok _ bs h, finish, midOk]

theorem Collect_builds_error (e : Exporter) (u : Upstream) (err : String)
    (hu : u.builds = .error err) :
    Collect e u = (finish (midError e) true u, .returned (emit (finish (midError e) true u))) := by
  simp only [Collect, scrape, hu, vecReset, scrapeBuilds_error, finish, midError]

theorem finish_builds (mid : Exporter) (err : Bool) (u : Upstream) :
    (finish mid err u).builds = mid.builds := by
  unfold finish scrapeDeferred scrapeAgents
  cases u.agents <;> rfl

theorem finish_error (mid : Exporter) (err : Bool) (u : Upstream) :
    (finish mid err u).error = if err then 1 else 0 := by
  rfl

theorem finish_up (mid : Exporter) (err : Bool) (u : Upstream) :
    (finish mid err u).up = 1 := by
  rfl

theorem finish_totalScrapes (mid : Exporter) (err : Bool) (u : Upstream) :
    (finish mid err u).totalScrapes = mid.totalScrapes := by
  unfold finish scrapeDeferred scrapeAgents
  cases u.agents <;> rfl

theorem finish_agents_ok (mid : Exporter) (err : Bool) (u : Upstream) (ags : List Agent)
    (hu : u.agents = .ok ags) : (finish mid err u).agents = ags.length := by
  unfold finish scrapeDeferred scrapeAgents
  rw [hu]

theorem finish_agents_error (mid : Exporter) (err : Bool) (u : Upstream) (msg : String)
    (hu : u.agents = .error msg) : (finish mid err u).agents = mid.agents := by
  unfold finish scrapeDeferred scrapeAgents
  rw [hu]

theorem finish_scrapeErrors (mid : Exporter) (err : Bool) (u : Upstream) :
    (finish mid err u).scrapeErrors =
      if failed u.agents then vecWith mid.scrapeErrors "agents" (· + 1)
      else mid.scrapeErrors := by
  unfold finish scrapeDeferred scrapeAgents failed
  cases u.agents <;> rfl

theorem statesPresent_cases (u : Upstream) (h : statesPresent u.builds = true) :
    (∃ err, u.builds = .error err) ∨ (∃ bs, u.builds = .ok bs ∧ allHaveState bs = true) := by
  cases hb : u.builds with
  | error err => exact Or.inl ⟨err, rfl⟩
  | ok bs =>
    rw [hb] at h
    exact Or.inr ⟨bs, rfl, h⟩

theorem Collect_returns (e : Exporter) (u : Upstream) (h : statesPresent u.builds = true) :
    ∃ out, (Collect e u).2 = .returned out := by
  rcases statesPresent_cases u h with ⟨err, hu⟩ | ⟨bs, hu, hbs⟩
  · rw [Collect_builds_error e u err hu]
    exact ⟨_, rfl⟩
  · rw [Collect_builds_ok e u bs hu hbs]
    exact ⟨_, rfl⟩

theorem Collect_error_gauge (e : Exporter) (u : Upstream) :
    (Collect e u).1.error = if failed u.builds then 1 else 0 := by
  unfold Collect scrape
  cases hb : u.builds with
  | error err => simp [scrapeBuilds, scrapeDeferred, failed]
  | ok bs =>
    simp only [scrapeBuilds]
    rcases hc : countBuilds (seedStates (vecReset e.builds)) bs with ⟨v, f⟩
    cases f <;> simp [scrapeDeferred, failed]

theorem Collect_totalScrapes (e : Exporter) (u : Upstream) :
    (Collect e u).1.totalScrapes = e.totalScrapes + 1 := by
  unfold Collect scrape
  cases hb : u.builds with
  | error err =>
    cases ha : u.agents <;> simp [scrapeBuilds, scrapeAgents, scrapeDeferred]
  | ok bs =>
    simp only [scrapeBuilds]
    rcases hc : countBuilds (seedStates (vecReset e.builds)) bs with ⟨v, f⟩
    cases f <;> cases ha : u.agents <;> simp [scrapeAgents, scrapeDeferred]

theorem collects_totalScrapes (us : List Upstream) (e : Exporter) :
    (collects e us).totalScrapes = e.totalScrapes + us.length := by
  induction us generalizing e with
  | nil => simp [collects]
  | cons u rest ih =>
    simp only [collects, ih, Collect_totalScrapes, List.length_cons]
    omega

theorem Collect_scrapeErrors (e : Exporter) (u : Upstream) (h : statesPresent u.builds = true)
    (l : String) :
    vecGet (Collect e u).1.scrapeErrors l =
      vecGet e.scrapeErrors l
        + (if l = "builds" ∧ failed u.builds = true then 1 else 0)
        + (if l = "agents" ∧ failed u.agents = true then 1 else 0) := by
  have hne : ¬ ("agents" = "builds") := by decide
  have hne' : ¬ ("builds" = "agents") := by decide
  rcases statesPresent_cases u h with ⟨err, hu⟩ | ⟨bs, hu, hbs⟩
  · rw [Collect_builds_error e u err hu, finish_scrapeErrors]
    cases ha : u.agents with
    | error msg =>
      simp only [midError, hu, failed, if_true, vecGet_vecWith]
      by_cases h1 : "agents" = l
      · subst h1
        simp [hne']
      · by_cases h2 : "builds" = l
        · subst h2
          simp
        · simp [h1, h2, Ne.symm h1, Ne.symm h2]
    | ok ags =>
      simp only [midError, hu, failed, vecGet_vecWith]
      by_cases h2 : "builds" = l
      · subst h2
        simp [vecGet_vecWith]
      · simp [h2, Ne.symm h2, vecGet_vecWith]
  · rw [Collect_builds_ok e u bs hu hbs, finish_scrapeErrors]
    cases ha : u.agents with
    | error msg =>
      simp only [midOk, hu, failed, if_true, vecGet_vecWith]
      by_cases h1 : "agents" = l
      · subst h1
        simp
      · simp [h1, Ne.symm h1]
    | ok ags => simp [midOk, hu, failed]

/-! ## Lemmas on the emitted samples -/

theorem vecHas_mem (v : MetricVec) (s : String) (h : vecHas v s = true) :
    (s, vecGet v s) ∈ v := by
  induction v with
  | nil => simp [vecHas] at h
  | cons kv rest ih =>
    obtain ⟨k, x⟩ := kv
    by_cases hk : k = s
    · subst hk
      simp [vecGet]
    · simp only [vecHas, hk, if_false] at h
      simp [vecGet, hk, ih h]

theorem countBuilds_has (bs : List Build) (v : MetricVec) (s : String)
    (h : vecHas v s = true) : vecHas (countBuilds v bs).1 s = true := by
  induction bs generalizing v with
  | nil => simpa [countBuilds] using h
  | cons b rest ih =>
    obtain ⟨st⟩ := b
    cases st with
    | none => simpa [countBuilds] using h
    | some s' =>
      simp only [countBuilds]
      apply ih
      simp [vecHas_vecWith, h]

theorem vecHas_seeded : ∀ s ∈ states, vecHas (seedStates []) s = true := by
  decide

theorem vecCollect_any (n ln n' ln' c : String) (v : MetricVec) :
    (vecCollect n ln v).any (fun x => decide (x.name = n' ∧ x.label = some (ln', c)))
      = (decide (n = n') && decide (ln = ln') && vecHas v c) := by
  induction v with
  | nil => simp [vecCollect, vecHas]
  | cons kv rest ih =>
    obtain ⟨k, x⟩ := kv
    have ih' : (List.map (fun kv : String × Nat => (⟨n, some (ln, kv.1), kv.2⟩ : Sample)) rest).any
        (fun x => decide (x.name = n' ∧ x.label = some (ln', c)))
        = (decide (n = n') && decide (ln = ln') && vecHas rest c) := ih
    simp only [vecCollect, List.map_cons, List.any_cons, ih', vecHas]
    by_cases h1 : n = n' <;> by_cases h2 : ln = ln' <;> by_cases h3 : k = c <;>
      simp [h1, h2, h3]

theorem emits_scrape_errors (p : Exporter) (c : String) :
    emits (.returned (emit p)) (fqName "scrape_errors_total") (some ("collector", c))
      = vecHas p.scrapeErrors c := by
  have hn : ¬ (fqName "builds" = fqName "scrape_errors_total") := by decide
  simp only [emits, emit, List.any_append, vecCollect_any]
  simp [hn]

theorem emitsSample_builds (p : Exporter) (s : String) (h : vecHas p.builds s = true) :
    emitsSample (.returned (emit p)) ⟨fqName "builds", some ("state", s), vecGet p.builds s⟩
      = true := by
  have hm := vecHas_mem p.builds s h
  simp only [emitsSample, emit, decide_eq_true_eq, List.mem_append, vecCollect, List.mem_map]
  exact Or.inl (Or.inl ⟨(s, vecGet p.builds s), hm, rfl⟩)

theorem emitsSample_scalars (p : Exporter) :
    emitsSample (.returned (emit p)) ⟨fqName "agents", none, p.agents⟩ = true ∧
    emitsSample (.returned (emit p)) ⟨fqName "up", none, p.up⟩ = true ∧
    emitsSample (.returned (emit p)) ⟨fqName "last_scrape_error", none, p.error⟩ = true ∧
    emitsSample (.returned (emit p)) ⟨fqName "last_scrape_duration_seconds", none, p.duration⟩
      = true ∧
    emitsSample (.returned (emit p)) ⟨fqName "scrapes_total", none, p.totalScrapes⟩ = true := by
  simp [emitsSample, emit]

theorem Collect_scrapeErrors_has (e : Exporter) (u : Upstream)
    (h : statesPresent u.builds = true) (c : String) :
    vecHas (Collect e u).1.scrapeErrors c =
      (vecHas e.scrapeErrors c || (decide (c = "builds") && failed u.builds)
        || (decide (c = "agents") && failed u.agents)) := by
  rcases statesPresent_cases u h with ⟨err, hu⟩ | ⟨bs, hu, hbs⟩
  · rw [Collect_builds_error e u err hu, finish_scrapeErrors]
    cases ha : u.agents with
    | error msg =>
      by_cases h1 : c = "agents" <;> by_cases h2 : c = "builds" <;>
        simp [midError, hu, failed, vecHas_vecWith, h1, h2, eq_comm]
    | ok ags =>
      by_cases h2 : c = "builds" <;>
        simp [midError, hu, failed, vecHas_vecWith, h2, eq_comm]
  · rw [Collect_builds_ok e u bs hu hbs, finish_scrapeErrors]
    cases ha : u.agents with
    | error msg =>
      by_cases h1 : c = "agents" <;>
        simp [midOk, hu, failed, vecHas_vecWith, h1, eq_comm]
    | ok ags => simp [midOk, hu, failed]

theorem Collect_builds_has (e : Exporter) (u : Upstream)
    (h : statesPresent u.builds = true) (s : String) (hs : s ∈ states) :
    vecHas (Collect e u).1.builds s = true := by
  rcases statesPresent_cases u h with ⟨err, hu⟩ | ⟨bs, hu, hbs⟩
  · rw [Collect_builds_error e u err hu, finish_builds]
    exact vecHas_seeded s hs
  · rw [Collect_builds_ok e u bs hu hbs, finish_builds]
    exact countBuilds_has bs _ s (vecHas_seeded s hs)

theorem Collect_sent (e : Exporter) (u : Upstream) (h : statesPresent u.builds = true) :
    (Collect e u).2 = .returned (emit (Collect e u).1) := by
  rcases statesPresent_cases u h with ⟨err, hu⟩ | ⟨bs, hu, hbs⟩
  · rw [Collect_builds_error e u err hu]
  · rw [Collect_builds_ok e u bs hu hbs]

theorem Collect_duration (e : Exporter) (u : Upstream) (h : statesPresent u.builds = true) :
    (Collect e u).1.duration = u.elapsed := by
  rcases statesPresent_cases u h with ⟨err, hu⟩ | ⟨bs, hu, hbs⟩
  · rw [Collect_builds_error e u err hu]
    rfl
  · rw [Collect_builds_ok e u bs hu hbs]
    rfl

theorem countBuilds_panicked (bs : List Build) (h : allHaveState bs = false) (v : MetricVec) :
    (countBuilds v bs).2 = .panicked := by
  induction bs generalizing v with
  | nil => simp [allHaveState] at h
  | cons b rest ih =>
    obtain ⟨st⟩ := b
    cases st with
    | none => rfl
    | some s =>
      have hr : allHaveState rest = false := by
        simpa [allHaveState] using h
      simpa [countBuilds] using ih hr _

theorem Collect_panics (e : Exporter) (u : Upstream) (h : statesPresent u.builds = false) :
    (Collect e u).2 = .panicked := by
  cases hb : u.builds with
  | error err => simp [hb, statesPresent] at h
  | ok bs =>
    rw [hb] at h
    have hp := countBuilds_panicked bs h (seedStates [])
    rcases hc : countBuilds (seedStates []) bs with ⟨v, f⟩
    rw [hc] at hp
    simp only at hp
    subst hp
    simp only [Collect, scrape, scrapeBuilds, hb, vecReset, hc]

theorem Collect_builds_panic (e : Exporter) (u : Upstream) (bs : List Build)
    (hu : u.builds = .ok bs) (h : allHaveState bs = false) :
    Collect e u = (scrapeDeferred (midOk e bs) u.elapsed false, .panicked) := by
  have hp := countBuilds_panicked bs h (seedStates [])
  rcases hc : countBuilds (seedStates []) bs with ⟨v, f⟩
  rw [hc] at hp
  simp only at hp
  subst hp
  simp only [Collect, scrape, scrapeBuilds, hu, vecReset, hc, midOk]

/-- A cycle in which a returned build has no state leaves the agents gauge,
the scrape errors vector and the up gauge as they were: the panic in the
builds loop skips `scrapeAgents` and `up.Set(1)`. -/
theorem Collect_panic_skips_agents (e : Exporter) (u : Upstream)
    (h : statesPresent u.builds = false) :
    (Collect e u).1.agents = e.agents ∧
    (Collect e u).1.scrapeErrors = e.scrapeErrors ∧
    (Collect e u).1.up = e.up := by
  cases hb : u.builds with
  | error err => simp [hb, statesPresent] at h
  | ok bs =>
    rw [hb] at h
    rw [Collect_builds_panic e u bs hb h]
    exact ⟨rfl, rfl, rfl⟩

/-! ## Theorems on `Collect` -/

/-- When the builds fetch succeeds and every returned build carries a state,
`Collect` returns and afterwards the builds vector reads, at every label value
`s`, the number of returned builds whose state is `s`, whatever the vector
held before; each enumerated state has a child; and the values sum to the
number of builds returned. -/
theorem builds_counted_of_stated_builds (e : Exporter) (bs : List Build) (ag : Fetch Agent)
    (t : Nat) (h : allHaveState bs = true) :
    (∃ out, (Collect e { builds := .ok bs, agents := ag, elapsed := t }).2 = .returned out) ∧
    (∀ s, vecGet (Collect e { builds := .ok bs, agents := ag, elapsed := t }).1.builds s
        = buildsInState bs s) ∧
    (∀ s ∈ states,
      vecHas (Collect e { builds := .ok bs, agents := ag, elapsed := t }).1.builds s = true) ∧
    vecSum (Collect e { builds := .ok bs, agents := ag, elapsed := t }).1.builds = bs.length := by
  have hp : statesPresent
      ({ builds := .ok bs, agents := ag, elapsed := t } : Upstream).builds = true := h
  have hhas := Collect_builds_has e { builds := .ok bs, agents := ag, elapsed := t } hp
  rw [Collect_builds_ok e _ bs rfl h] at hhas ⊢
  refine ⟨⟨_, rfl⟩, ?_, hhas, ?_⟩
  · intro s
    simp only [finish_builds, midOk]
    rw [countBuilds_get bs h, seedStates_nil, vecGet_seeded]
    omega
  · simp only [finish_builds, midOk]
    rw [countBuilds_sum bs h, seedStates_nil, vecSum_seeded]
    omega

/-- Builds passed, passed, failed on an exporter holding earlier counts:
passed reads 2, failed reads 1, running reads 0 and the sum is 3. -/
theorem builds_counted_example :
    allHaveState [⟨some "passed"⟩, ⟨some "passed"⟩, ⟨some "failed"⟩] = true ∧
    vecGet (Collect staleExporter scenarioOk).1.builds "passed" = 2 ∧
    vecGet (Collect staleExporter scenarioOk).1.builds "failed" = 1 ∧
    vecGet (Collect staleExporter scenarioOk).1.builds "running" = 0 ∧
    vecSum (Collect staleExporter scenarioOk).1.builds = 3 :=
  ⟨by decide,
   (builds_counted_of_stated_builds staleExporter _ (.ok [⟨⟩, ⟨⟩, ⟨⟩]) 1500 (by decide)).2.1 "passed",
   (builds_counted_of_stated_builds staleExporter _ (.ok [⟨⟩, ⟨⟩, ⟨⟩]) 1500 (by decide)).2.1 "failed",
   (builds_counted_of_stated_builds staleExporter _ (.ok [⟨⟩, ⟨⟩, ⟨⟩]) 1500 (by decide)).2.1 "running",
   (builds_counted_of_stated_builds staleExporter _ (.ok [⟨⟩, ⟨⟩, ⟨⟩]) 1500 (by decide)).2.2.2⟩

/-- C2: when the builds fetch fails, `Collect` returns and afterwards the
builds vector holds exactly the ten enumerated states, each at zero, whatever
it held before, every label value reads zero, and the error gauge is 1. -/
theorem C2_failed_builds_fetch_zeroes (e : Exporter) (err : String) (ag : Fetch Agent)
    (t : Nat) :
    (∃ out, (Collect e { builds := .error err, agents := ag, elapsed := t }).2 = .returned out) ∧
    (Collect e { builds := .error err, agents := ag, elapsed := t }).1.builds
      = states.map (fun s => (s, 0)) ∧
    (∀ s ∈ states,
      vecHas (Collect e { builds := .error err, agents := ag, elapsed := t }).1.builds s = true) ∧
    (∀ s, vecGet (Collect e { builds := .error err, agents := ag, elapsed := t }).1.builds s = 0) ∧
    (Collect e { builds := .error err, agents := ag, elapsed := t }).1.error = 1 := by
  rw [Collect_builds_error e _ err rfl]
  simp only [finish_builds, finish_error, midError, seedStates_nil]
  refine ⟨⟨_, rfl⟩, trivial, ?_, vecGet_seeded, ?_⟩
  · decide
  · simp

/-- In a cycle that runs to its end (the builds fetch failed, or every
returned build carries a state), `Collect` returns and afterwards the agents
gauge is the number of agents returned when the agents fetch succeeded and is
its value before the call when the agents fetch failed, whatever the builds
fetch did. -/
theorem agents_gauge_of_completed_cycle (e : Exporter) (u : Upstream) (h : statesPresent u.builds = true) :
    (∃ out, (Collect e u).2 = .returned out) ∧
    (∀ ags, u.agents = .ok ags → (Collect e u).1.agents = ags.length) ∧
    (∀ msg, u.agents = .error msg → (Collect e u).1.agents = e.agents) := by
  refine ⟨Collect_returns e u h, ?_, ?_⟩
  · intro ags ha
    rcases statesPresent_cases u h with ⟨err, hu⟩ | ⟨bs, hu, hbs⟩
    · rw [Collect_builds_error e u err hu]
      exact finish_agents_ok _ _ u ags ha
    · rw [Collect_builds_ok e u bs hu hbs]
      exact finish_agents_ok _ _ u ags ha
  · intro msg ha
    rcases statesPresent_cases u h with ⟨err, hu⟩ | ⟨bs, hu, hbs⟩
    · rw [Collect_builds_error e u err hu]
      exact finish_agents_error _ _ u msg ha
    · rw [Collect_builds_ok e u bs hu hbs]
      exact finish_agents_error _ _ u msg ha

/-- A failing builds fetch with five agents returned (the gauge reads 5)
and a failing agents fetch on an exporter whose gauge read 6 (it still
reads 6). -/
theorem agents_gauge_example :
    statesPresent scenarioBuildsDown.builds = true ∧
    (Collect staleExporter scenarioBuildsDown).1.agents = 5 ∧
    (Collect staleExporter scenarioAllDown).1.agents = 6 :=
  ⟨by decide,
   (agents_gauge_of_completed_cycle staleExporter scenarioBuildsDown (by decide)).2.1 _ rfl,
   (agents_gauge_of_completed_cycle staleExporter scenarioAllDown (by decide)).2.2 _ rfl⟩

/-- C4: after every `Collect` the error gauge is 1 exactly when the builds
fetch of that cycle failed and 0 exactly when it did not; neither the agents
fetch nor the value the gauge held before enters. -/
theorem C4_error_gauge_tracks_builds_fetch (e : Exporter) (u : Upstream) :
    ((Collect e u).1.error = 1 ↔ failed u.builds = true) ∧
    ((Collect e u).1.error = 0 ↔ failed u.builds = false) := by
  rw [Collect_error_gauge]
  cases failed u.builds <;> simp

/-- In a cycle that runs to its end, the scrape errors counter under
`builds` and under `agents` afterwards is its value before plus 1 when that
fetch failed and is unchanged when it succeeded, each independently of the
other fetch; no child of the vector decreases; and one cycle with a failing
builds fetch on a new exporter leaves the counter under `builds` at 1. -/
theorem scrape_errors_of_completed_cycle (e : Exporter) (u : Upstream)
    (h : statesPresent u.builds = true) :
    vecGet (Collect e u).1.scrapeErrors "builds"
      = vecGet e.scrapeErrors "builds" + (if failed u.builds then 1 else 0) ∧
    vecGet (Collect e u).1.scrapeErrors "agents"
      = vecGet e.scrapeErrors "agents" + (if failed u.agents then 1 else 0) ∧
    (∀ l, vecGet e.scrapeErrors l ≤ vecGet (Collect e u).1.scrapeErrors l) ∧
    (∀ err ag t,
      vecGet (Collect NewExporter { builds := .error err, agents := ag, elapsed := t }).1.scrapeErrors
        "builds" = 1) := by
  refine ⟨?_, ?_, ?_, ?_⟩
  · rw [Collect_scrapeErrors e u h]
    simp
  · rw [Collect_scrapeErrors e u h]
    simp
  · intro l
    rw [Collect_scrapeErrors e u h]
    omega
  · intro err ag t
    rw [Collect_scrapeErrors NewExporter _ (by rfl)]
    simp [failed, NewExporter, vecGet]

/-- A cycle with both fetches failing on an exporter whose counter
under `builds` read 2 and whose vector had no child under `agents`. -/
theorem scrape_errors_example :
    statesPresent scenarioAllDown.builds = true ∧
    vecGet (Collect staleExporter scenarioAllDown).1.scrapeErrors "builds" = 3 ∧
    vecGet (Collect staleExporter scenarioAllDown).1.scrapeErrors "agents" = 1 :=
  ⟨by decide,
   (scrape_errors_of_completed_cycle staleExporter scenarioAllDown (by decide)).1,
   (scrape_errors_of_completed_cycle staleExporter scenarioAllDown (by decide)).2.1⟩

/-- C8: every `Collect` adds exactly 1 to the total scrapes counter, whatever
the two fetches answer, and after any sequence of `Collect` calls on a new
exporter the counter equals the number of calls. -/
theorem C8_total_scrapes_counts_calls (e : Exporter) (u : Upstream) (us : List Upstream) :
    (Collect e u).1.totalScrapes = e.totalScrapes + 1 ∧
    (collects NewExporter us).totalScrapes = us.length := by
  refine ⟨Collect_totalScrapes e u, ?_⟩
  rw [collects_totalScrapes]
  simp [NewExporter]

/-- C9: for every combination of outcomes of the two fetches, both failing
included, a cycle that runs to its end returns with the up gauge at 1. -/
theorem C9_up_after_completed_cycle (e : Exporter) (u : Upstream)
    (h : statesPresent u.builds = true) :
    (∃ out, (Collect e u).2 = .returned out) ∧ (Collect e u).1.up = 1 := by
  refine ⟨Collect_returns e u h, ?_⟩
  rcases statesPresent_cases u h with ⟨err, hu⟩ | ⟨bs, hu, hbs⟩
  · rw [Collect_builds_error e u err hu]
    exact finish_up _ _ u
  · rw [Collect_builds_ok e u bs hu hbs]
    exact finish_up _ _ u

/-- C9 at a cycle with both fetches failing on a new exporter. -/
theorem C9_up_after_completed_cycle_witness :
    statesPresent scenarioAllDown.builds = true ∧
    (∃ out, (Collect NewExporter scenarioAllDown).2 = .returned out) ∧
    (Collect NewExporter scenarioAllDown).1.up = 1 :=
  ⟨by decide, C9_up_after_completed_cycle NewExporter scenarioAllDown (by decide)⟩

/-- C6 as stated fails: the first `Collect` on a new exporter with both
fetches succeeding returns, and none of the samples it sent belongs to the
scrape errors vector. -/
theorem C6_no_scrape_errors_series_on_first_cycle :
    ∃ out, (Collect NewExporter scenarioOk).2 = .returned out ∧
      ∀ x ∈ out, x.name ≠ fqName "scrape_errors_total" :=
  ⟨emit (Collect NewExporter scenarioOk).1, by decide, by decide⟩

/-- C6 as amended: a cycle that runs to its end sends, for every earlier state
of the exporter and every outcome of the two fetches, a sample of the builds
vector for each of the ten enumerated states and the five scalar samples
agents, up, last scrape error, last scrape duration and total scrapes; it
sends a sample of the scrape errors vector under collector `c` exactly when
that child existed before the cycle or `c` names a fetch that failed in this
cycle. -/
theorem C6_samples_of_a_completed_cycle (e : Exporter) (u : Upstream)
    (h : statesPresent u.builds = true) :
    (∀ s ∈ states, emitsSample (Collect e u).2
        ⟨fqName "builds", some ("state", s), vecGet (Collect e u).1.builds s⟩ = true) ∧
    (∀ c, emits (Collect e u).2 (fqName "scrape_errors_total") (some ("collector", c))
        = (vecHas e.scrapeErrors c || (decide (c = "builds") && failed u.builds)
            || (decide (c = "agents") && failed u.agents))) ∧
    emitsSample (Collect e u).2 ⟨fqName "agents", none, (Collect e u).1.agents⟩ = true ∧
    emitsSample (Collect e u).2 ⟨fqName "up", none, 1⟩ = true ∧
    emitsSample (Collect e u).2
        ⟨fqName "last_scrape_error", none, if failed u.builds then 1 else 0⟩ = true ∧
    emitsSample (Collect e u).2 ⟨fqName "last_scrape_duration_seconds", none, u.elapsed⟩ = true ∧
    emitsSample (Collect e u).2 ⟨fqName "scrapes_total", none, e.totalScrapes + 1⟩ = true := by
  have hsent := Collect_sent e u h
  have hsc := emitsSample_scalars (Collect e u).1
  have hup : (Collect e u).1.up = 1 := by
    rcases statesPresent_cases u h with ⟨err, hu⟩ | ⟨bs, hu, hbs⟩
    · rw [Collect_builds_error e u err hu]
      exact finish_up _ _ u
    · rw [Collect_builds_ok e u bs hu hbs]
      exact finish_up _ _ u
  rw [Collect_error_gauge, Collect_totalScrapes, Collect_duration e u h, hup, ← hsent] at hsc
  refine ⟨?_, ?_, hsc⟩
  · intro s hs
    rw [hsent]
    exact emitsSample_builds _ s (Collect_builds_has e u h s hs)
  · intro c
    rw [hsent, emits_scrape_errors, Collect_scrapeErrors_has e u h]

/-- C6 as amended, at a cycle whose agents fetch fails on an exporter that had
a child under `builds` and none under `agents` in its scrape errors vector:
the running series is sent with value 1 and both scrape errors series are
sent. -/
theorem C6_samples_of_a_completed_cycle_witness :
    statesPresent scenarioAgentsDown.builds = true ∧
    emitsSample (Collect staleExporter scenarioAgentsDown).2
      ⟨fqName "builds", some ("state", "running"), 1⟩ = true ∧
    emits (Collect staleExporter scenarioAgentsDown).2
      (fqName "scrape_errors_total") (some ("collector", "agents")) = true ∧
    emits (Collect staleExporter scenarioAgentsDown).2
      (fqName "scrape_errors_total") (some ("collector", "builds")) = true :=
  ⟨by decide,
   (C6_samples_of_a_completed_cycle staleExporter scenarioAgentsDown (by decide)).1
     "running" (by decide),
   (C6_samples_of_a_completed_cycle staleExporter scenarioAgentsDown (by decide)).2.1 "agents",
   (C6_samples_of_a_completed_cycle staleExporter scenarioAgentsDown (by decide)).2.1 "builds"⟩

/-- C7 at a build with no state: `Collect` panics instead of returning, the
build is counted nowhere, and neither the agents gauge nor the up gauge is
set.  A build in a state outside the enumerated set, by contrast, is counted
under its own label value and the call returns. -/
theorem C7_build_without_state_panics :
    (Collect NewExporter scenarioNilState).2 = .panicked ∧
    vecSum (Collect NewExporter scenarioNilState).1.builds = 0 ∧
    (Collect NewExporter scenarioNilState).1.agents = 0 ∧
    (Collect NewExporter scenarioNilState).1.up = 0 ∧
    (∃ out, (Collect NewExporter scenarioUnknownState).2 = .returned out) ∧
    vecGet (Collect NewExporter scenarioUnknownState).1.builds "waiting" = 1 := by
  refine ⟨by decide, by decide, by decide, by decide, ⟨_, rfl⟩, by decide⟩

theorem failed_of_not_statesPresent (r : Fetch Build) (h : statesPresent r = false) :
    failed r = false := by
  cases r with
  | error err => simp [statesPresent] at h
  | ok bs => rfl

/-- In every cycle, panicking ones included, a failing agents fetch leaves the
agents gauge at its value before the call. -/
theorem agents_gauge_kept_on_error (e : Exporter) (u : Upstream) (msg : String)
    (ha : u.agents = .error msg) : (Collect e u).1.agents = e.agents := by
  cases h : statesPresent u.builds with
  | true => exact (agents_gauge_of_completed_cycle e u h).2.2 msg ha
  | false => exact (Collect_panic_skips_agents e u h).1

/-- In every cycle, panicking ones included, the scrape errors counter under
`builds` grows by 1 exactly when the builds fetch failed, and no child of the
scrape errors vector decreases. -/
theorem scrape_errors_builds_every_cycle (e : Exporter) (u : Upstream) :
    vecGet (Collect e u).1.scrapeErrors "builds"
      = vecGet e.scrapeErrors "builds" + (if failed u.builds then 1 else 0) ∧
    (∀ l, vecGet e.scrapeErrors l ≤ vecGet (Collect e u).1.scrapeErrors l) := by
  cases h : statesPresent u.builds with
  | true =>
    exact ⟨(scrape_errors_of_completed_cycle e u h).1,
           (scrape_errors_of_completed_cycle e u h).2.2.1⟩
  | false =>
    rw [(Collect_panic_skips_agents e u h).2.1, failed_of_not_statesPresent _ h]
    exact ⟨by simp, fun _ => Nat.le_refl _⟩

/-- C1 at a successful builds fetch returning passed, a build with no state,
passed, on a new exporter: `Collect` panics at the second build instead of
returning; afterwards the builds vector reads 1 under passed although two
returned builds are in state passed, and its values sum to 1 although three
builds were returned. -/
theorem C1_count_stops_at_build_without_state :
    failed scenarioStateMissing.builds = false ∧
    (Collect NewExporter scenarioStateMissing).2 = .panicked ∧
    (Collect NewExporter scenarioStateMissing).1.builds
      = [("running", 0), ("scheduled", 0), ("passed", 1), ("failed", 0), ("blocked", 0),
         ("canceled", 0), ("canceling", 0), ("skipped", 0), ("not_run", 0), ("finished", 0)] ∧
    vecGet (Collect NewExporter scenarioStateMissing).1.builds "passed" = 1 ∧
    buildsInState [⟨some "passed"⟩, ⟨none⟩, ⟨some "passed"⟩] "passed" = 2 ∧
    vecSum (Collect NewExporter scenarioStateMissing).1.builds = 1 ∧
    [(⟨some "passed"⟩ : Build), ⟨none⟩, ⟨some "passed"⟩].length = 3 := by
  refine ⟨by decide, by decide, by decide, by decide, by decide, by decide, by decide⟩

/-- C3 at a successful builds fetch returning one build with no state and a
successful agents fetch returning two agents: `Collect` panics in the builds
loop and `scrapeAgents` never runs, so on a new exporter the agents gauge
still reads 0, and on an exporter whose earlier cycle saw three agents it
still reads 3; in neither case does it read 2. -/
theorem C3_agents_scrape_skipped_by_panic :
    failed scenarioNilStateTwoAgents.builds = false ∧
    failed scenarioNilStateTwoAgents.agents = false ∧
    (Collect NewExporter scenarioNilStateTwoAgents).2 = .panicked ∧
    (Collect NewExporter scenarioNilStateTwoAgents).1.agents = 0 ∧
    (Collect NewExporter scenarioOk).1.agents = 3 ∧
    (Collect (Collect NewExporter scenarioOk).1 scenarioNilStateTwoAgents).1.agents = 3 := by
  refine ⟨by decide, by decide, by decide, by decide, by decide, by decide⟩

/-- C5 at a successful builds fetch returning one build with no state and a
failing agents fetch, on a new exporter: `Collect` panics in the builds loop
and `scrapeAgents` never runs, so the failure of the agents fetch is not
counted: the scrape errors vector has no child under `agents` and reads 0
there. -/
theorem C5_agents_failure_uncounted_after_panic :
    failed scenarioNilStateAgentsDown.builds = false ∧
    failed scenarioNilStateAgentsDown.agents = true ∧
    (Collect NewExporter scenarioNilStateAgentsDown).2 = .panicked ∧
    (Collect NewExporter scenarioNilStateAgentsDown).1.scrapeErrors = [] ∧
    vecHas (Collect NewExporter scenarioNilStateAgentsDown).1.scrapeErrors "agents" = false ∧
    vecGet (Collect NewExporter scenarioNilStateAgentsDown).1.scrapeErrors "agents" = 0 := by
  refine ⟨by decide, by decide, by decide, by decide, by decide, by decide⟩

end BuildkiteExporter
